import Mathlib

/-
Verification development for the concurrent multi-domain DNS resolution engine
in `src/functions/dns_resolver.py`.

The Python module is shallowly embedded below.  DNS network behaviour is
abstracted as an oracle `env : String → RType → Outcome` (one oracle per retry
attempt, since the network may answer differently on each attempt); the
process-global `SimpleTTLCache` is embedded as explicit state threaded through
the worker, with `time.monotonic()` values supplied as explicit `Nat`
parameters.  Exceptions are embedded as the `DnsErr` type carried in `Except` /
`Option` results.
-/

namespace DnsResolver

/-- Record type symbols queried by the resolver module. -/
inductive RType
  | A
  | AAAA
  | NS
  | CNAME
  | RRSIG
  | DNSKEY
deriving DecidableEq, Repr

/-- The exception classes that can reach the module's handlers.
`DnsTimeout` is `dns.exception.Timeout` (alias `dns.resolver.Timeout`);
`DNSException` stands for any other `dns.exception.DNSException` subclass;
`AsyncioTimeout` is the `asyncio.TimeoutError` raised by `asyncio.wait_for`
(not a dnspython class); `RuntimeErr` is Python's `RuntimeError`. -/
inductive DnsErr
  | NXDOMAIN
  | NoAnswer
  | NoNameservers
  | DnsTimeout
  | DNSException
  | AsyncioTimeout
  | RuntimeErr (msg : String)
deriving DecidableEq, Repr

/-- Outcome of one `resolver.resolve(name, rtype)` call: either an answer
object (its records as text, and the rrset TTL when one is available — `none`
models `ans.rrset.ttl` raising) or a raised exception. -/
inductive Outcome
  | ok (records : List String) (rttl : Option Nat)
  | err (e : DnsErr)
deriving DecidableEq, Repr

/-- Python class name of the exception, as stored in `error["type"]`
(`last_error.__class__.__name__`). -/
def errType : DnsErr → String
  | .NXDOMAIN => "NXDOMAIN"
  | .NoAnswer => "NoAnswer"
  | .NoNameservers => "NoNameservers"
  | .DnsTimeout => "Timeout"
  | .DNSException => "DNSException"
  | .AsyncioTimeout => "TimeoutError"
  | .RuntimeErr _ => "RuntimeError"

/-- The `str(last_error)` text stored in `error["message"]`.  For
`RuntimeError` this is the message it was raised with ("CNAME loop detected");
for the library exceptions it is dnspython's canned message, whose exact text
no claim observes. -/
def errMessage : DnsErr → String
  | .NXDOMAIN => "The DNS query name does not exist."
  | .NoAnswer => "The DNS response does not contain an answer to the question."
  | .NoNameservers => "All nameservers failed to answer the query."
  | .DnsTimeout => "The DNS operation timed out."
  | .DNSException => "DNS exception"
  | .AsyncioTimeout => ""
  | .RuntimeErr msg => msg

/-- Embedding of `_is_transient_error`.  The Python body is a chain of
`isinstance` checks against dnspython classes; `asyncio.TimeoutError` and
`RuntimeError` are not dnspython exceptions, so every check fails for them and
the function falls through to `return False`. -/
def is_transient_error : DnsErr → Bool
  | .NXDOMAIN => false
  | .NoAnswer => false
  | .NoNameservers => true
  | .DnsTimeout => true
  | .DNSException => true
  | .AsyncioTimeout => false
  | .RuntimeErr _ => false

/-- Module constant `DEFAULT_CACHE_TTL = 60`. -/
def DEFAULT_CACHE_TTL : Nat := 60

/-- Module constant `MAX_CNAME_DEPTH = 8`. -/
def MAX_CNAME_DEPTH : Nat := 8

/-- Module constant `DEFAULT_RETRIES = 2`. -/
def DEFAULT_RETRIES : Nat := 2

/-- Module constant `DEFAULT_CONCURRENCY = 50`. -/
def DEFAULT_CONCURRENCY : Nat := 50

/-- Cache keys are `(name, rtype)` pairs, as in `self._data`. -/
abbrev CacheKey := String × RType

/-- Cache entries are `(expiry, value)`; Python stores either a list of record
strings or a single CNAME target string — the latter is embedded as a
one-element list so that all values share one type. -/
abbrev CacheEntry := Nat × List String

/-- First entry stored under a key (`self._data.get(key)`; a Python dict holds
at most one entry per key). -/
def cacheFind : List (CacheKey × CacheEntry) → CacheKey → Option CacheEntry
  | [], _ => none
  | (k, v) :: rest, key => if k = key then some v else cacheFind rest key

/-- Dict assignment `self._data[key] = (exp, value)`: replace the entry for the
key if present, else append. -/
def cacheInsert : List (CacheKey × CacheEntry) → CacheKey → CacheEntry →
    List (CacheKey × CacheEntry)
  | [], key, v => [(key, v)]
  | (k, w) :: rest, key, v =>
      if k = key then (key, v) :: rest else (k, w) :: cacheInsert rest key v

/-- Dict deletion `del self._data[key]` (keys are unique in a dict, so removing
every matching entry coincides with removing the one entry). -/
def cacheErase (l : List (CacheKey × CacheEntry)) (key : CacheKey) :
    List (CacheKey × CacheEntry) :=
  l.filter (fun e => e.1 ≠ key)

/-- Embedding of the `SimpleTTLCache` class: its `_data` dict. -/
structure SimpleTTLCache where
  data : List (CacheKey × CacheEntry)
deriving DecidableEq, Repr

/-- `SimpleTTLCache.get`: the current `time.monotonic()` reading is the
explicit parameter `now`.  Returns the value (or `none`) together with the
cache state after the lazy eviction of an expired entry. -/
def SimpleTTLCache.get (c : SimpleTTLCache) (now : Nat) (name : String)
    (rtype : RType) : Option (List String) × SimpleTTLCache :=
  match cacheFind c.data (name, rtype) with
  | none => (none, c)
  | some (exp, val) =>
      if now > exp then (none, ⟨cacheErase c.data (name, rtype)⟩)
      else (some val, c)

/-- `SimpleTTLCache.set`: absolute expiry is `now + ttl`, falling back to the
module default when the caller passed `None`. -/
def SimpleTTLCache.set (c : SimpleTTLCache) (now : Nat) (name : String)
    (rtype : RType) (value : List String) (ttl : Option Nat) : SimpleTTLCache :=
  ⟨cacheInsert c.data (name, rtype) (now + ttl.getD DEFAULT_CACHE_TTL, value)⟩

/-- The empty cache (`SimpleTTLCache.__init__`). -/
def emptyCache : SimpleTTLCache := ⟨[]⟩

/-- A per-attempt DNS oracle: the outcome `resolver.resolve(name, rtype)`
would produce on this attempt. -/
abbrev Env := String → RType → Outcome

/-- The fields of the per-domain `result` dict that `_do_work` mutates in
place (`error`, `metrics` and `trace` are filled in only after the retry loop
and are assembled in `resolve_one` below). -/
structure ResultState where
  domain : String
  resolvable : Bool
  ip_addresses : List String
  name_servers : List String
  dnssec : String
deriving DecidableEq, Repr

/-- The `result` dict as initialised at the top of `_resolve_one`. -/
def initResult (domain : String) : ResultState :=
  { domain := domain
    resolvable := false
    ip_addresses := []
    name_servers := []
    dnssec := "unknown" }

/-- Phase 1 of `_do_work`: the CNAME chase (`for depth in range(MAX_CNAME_DEPTH)`),
cache-first.  `NoAnswer` on the CNAME query breaks the chase (the current name
is final); an empty answer gives `cname_target = None` and also breaks; a
target equal to the current name raises `RuntimeError("CNAME loop detected")`;
`NXDOMAIN` and every other exception propagate.  A cached CNAME value is the
previously stored one-element list holding the target string. -/
def cnameChase (env : Env) (ttlDefault now : Nat) :
    Nat → String → SimpleTTLCache → Except DnsErr String × SimpleTTLCache
  | 0, name, cache => (.ok name, cache)
  | fuel + 1, name, cache =>
    match cache.get now name .CNAME with
    | (some val, cache1) =>
      let t := val.headD ""
      if t = "" then (.ok name, cache1)
      else if t = name then (.error (.RuntimeErr "CNAME loop detected"), cache1)
      else cnameChase env ttlDefault now fuel t cache1
    | (none, cache1) =>
      match env name .CNAME with
      | .err .NoAnswer => (.ok name, cache1)
      | .err e => (.error e, cache1)
      | .ok records rttl =>
        match records with
        | [] => (.ok name, cache1)
        | t :: _ =>
          if t = "" then (.ok name, cache1)
          else
            let cache2 := cache1.set now name .CNAME [t] (some (rttl.getD ttlDefault))
            if t = name then (.error (.RuntimeErr "CNAME loop detected"), cache2)
            else cnameChase env ttlDefault now fuel t cache2

/-- One iteration of the phase-2 loop (`for rtype in ("A", "AAAA")`),
cache-first.  On a cache miss the resolve call's exception is captured into
`exc`, `ips` is set to `[]`, and then `raise exc` re-raises it — so ANY
exception here, `NoAnswer` included, aborts the attempt.  A present non-empty
answer is cached under the rrset TTL (falling back to `cache_ttl_default`). -/
def addrLookup (env : Env) (ttlDefault now : Nat) (name : String) (rtype : RType)
    (cache : SimpleTTLCache) : Except DnsErr (List String) × SimpleTTLCache :=
  match cache.get now name rtype with
  | (some val, cache1) => (.ok val, cache1)
  | (none, cache1) =>
    match env name rtype with
    | .err e => (.error e, cache1)
    | .ok records rttl =>
      if records.isEmpty then (.ok [], cache1)
      else (.ok records, cache1.set now name rtype records (some (rttl.getD ttlDefault)))

/-- Phase 3 body: NS lookup for the ORIGINAL domain, cache-first, with the
answer cached unconditionally; the `except dns.resolver.NoAnswer` wrapper is
applied by the caller (`do_work`). -/
def nsLookup (env : Env) (ttlDefault now : Nat) (domain : String)
    (cache : SimpleTTLCache) : Except DnsErr (List String) × SimpleTTLCache :=
  match cache.get now domain .NS with
  | (some val, cache1) => (.ok val, cache1)
  | (none, cache1) =>
    match env domain .NS with
    | .err e => (.error e, cache1)
    | .ok records rttl =>
      (.ok records, cache1.set now domain .NS records (some (rttl.getD ttlDefault)))

/-- Phase 4: the DNSSEC presence probe.  RRSIG is queried for the CNAME-chased
`name`, DNSKEY for the original `domain`; the probe does not touch the cache.
`NoAnswer` on either query means "not present"; `bool(answers)` is non-emptiness
of the records; any other exception anywhere in the probe is caught by the
surrounding `except Exception` and yields `"unknown"` (note an unexpected RRSIG
error skips the DNSKEY query entirely). -/
def dnssecProbe (env : Env) (name domain : String) : String :=
  match env name .RRSIG with
  | .ok rrsigRecords _ =>
    match env domain .DNSKEY with
    | .ok dnskeyRecords _ =>
      if !rrsigRecords.isEmpty || !dnskeyRecords.isEmpty then "signed-present"
      else "unsigned"
    | .err .NoAnswer =>
      if !rrsigRecords.isEmpty then "signed-present" else "unsigned"
    | .err _ => "unknown"
  | .err .NoAnswer =>
    match env domain .DNSKEY with
    | .ok dnskeyRecords _ =>
      if !dnskeyRecords.isEmpty then "signed-present" else "unsigned"
    | .err .NoAnswer => "unsigned"
    | .err _ => "unknown"
  | .err _ => "unknown"

/-- Embedding of `_do_work` for one attempt: runs phases 1–5 sequentially,
mutating `res` and the global cache; returns the raised exception (also the
value stored into `last_error` by the outer `except` in `_do_work`) or `none`
on success.  `result["ip_addresses"]` is assigned only after BOTH address
lookups succeed (the Python assignment sits after the rtype loop), and
`result["resolvable"]` is recomputed at the end of a successful attempt. -/
def do_work (env : Env) (ttlDefault now : Nat) (domain : String)
    (res : ResultState) (cache : SimpleTTLCache) :
    ResultState × SimpleTTLCache × Option DnsErr :=
  match cnameChase env ttlDefault now MAX_CNAME_DEPTH domain cache with
  | (.error e, cache1) => (res, cache1, some e)
  | (.ok name, cache1) =>
    match addrLookup env ttlDefault now name .A cache1 with
    | (.error e, cache2) => (res, cache2, some e)
    | (.ok ipsA, cache2) =>
      match addrLookup env ttlDefault now name .AAAA cache2 with
      | (.error e, cache3) => (res, cache3, some e)
      | (.ok ipsAAAA, cache3) =>
        let res1 := { res with ip_addresses := ipsA ++ ipsAAAA }
        let finish := fun (r : ResultState) (c : SimpleTTLCache) =>
          let r1 := { r with dnssec := dnssecProbe env name domain }
          let r2 := { r1 with resolvable := decide (0 < r1.ip_addresses.length) }
          (r2, c, (none : Option DnsErr))
        match nsLookup env ttlDefault now domain cache3 with
        | (.error .NoAnswer, cache4) => finish { res1 with name_servers := [] } cache4
        | (.error e, cache4) => (res1, cache4, some e)
        | (.ok ns, cache4) => finish { res1 with name_servers := ns } cache4

/-- Backoff before retry number `attempt + 1`: `(2 ** attempt) * 0.1` seconds. -/
def backoffDelay (attempt : Nat) : ℚ := (2 ^ attempt : ℚ) * (1 / 10)

/-- Duration of the `asyncio.sleep` after failed attempt `attempt`:
`backoff + random.random() * backoff`, with `rand` the drawn `random.random()`
value. -/
def sleepFor (rand : ℚ) (attempt : Nat) : ℚ :=
  backoffDelay attempt + rand * backoffDelay attempt

/-- State of `_resolve_one`'s locals when its retry loop finishes, plus the
list of backoff sleeps it performed (in order). -/
structure LoopOut where
  res : ResultState
  cache : SimpleTTLCache
  attempts : Nat
  lastError : Option DnsErr
  sleeps : List ℚ
deriving DecidableEq, Repr

/-- The retry loop of `_resolve_one` (`for attempt in range(retries + 1)`).
`envs` gives the DNS oracle for each attempt and `rands` the `random.random()`
draw used in that attempt's backoff; `timesOut attempt` says whether the
attempt would exceed the configured per-domain wall-clock timeout, in which
case (when `pdt` — a truthy `per_domain_timeout` — is set) `asyncio.wait_for`
cancels the work and raises `asyncio.TimeoutError` (the cancelled attempt is
modelled as performing no mutations).  `fuel` counts the loop iterations still
allowed; the loop is entered with `fuel = retries + 1`, so the `fuel = 0` case
is never reached from `runRetryLoop`. -/
def retryGo (envs : Nat → Env) (timesOut : Nat → Bool) (pdt : Bool)
    (rands : Nat → ℚ) (retries ttlDefault now : Nat) (domain : String) :
    Nat → Nat → ResultState → SimpleTTLCache → List ℚ → LoopOut
  | 0, attempt, res, cache, sleeps => ⟨res, cache, attempt, none, sleeps⟩
  | fuel + 1, attempt, res, cache, sleeps =>
    match (if pdt && timesOut attempt then (res, cache, some DnsErr.AsyncioTimeout)
           else do_work (envs attempt) ttlDefault now domain res cache) with
    | (res1, cache1, none) => ⟨res1, cache1, attempt + 1, none, sleeps⟩
    | (res1, cache1, some e) =>
      if is_transient_error e = false ∨ attempt = retries then
        ⟨res1, cache1, attempt + 1, some e, sleeps⟩
      else
        retryGo envs timesOut pdt rands retries ttlDefault now domain fuel
          (attempt + 1) res1 cache1 (sleeps ++ [sleepFor (rands attempt) attempt])

/-- The configuration options of `resolve_domains_async` that the claims
observe.  `per_domain_timeout` records only whether a truthy timeout was
passed (its numeric value is wall-clock and enters the model through
`WorkerCtx.timesOut`). -/
structure Config where
  per_domain_timeout : Bool
  retries : Nat
  cache_ttl_default : Nat
  nameservers : Option (List String)
  concurrency : Nat
deriving DecidableEq, Repr

/-- The nondeterministic inputs one worker's execution consumes: the DNS
oracle per attempt, which attempts exceed the per-domain timeout, the random
draws for jitter, the `time.monotonic()` reading supplied to cache operations,
and the state the shared global cache is in when this worker reads it. -/
structure WorkerCtx where
  env : Nat → Env
  timesOut : Nat → Bool
  rands : Nat → ℚ
  now : Nat
  initCache : SimpleTTLCache

/-- Run the retry loop of `_resolve_one` from the freshly initialised result
dict. -/
def runRetryLoop (cfg : Config) (ctx : WorkerCtx) (domain : String) : LoopOut :=
  retryGo ctx.env ctx.timesOut cfg.per_domain_timeout ctx.rands cfg.retries
    cfg.cache_ttl_default ctx.now domain (cfg.retries + 1) 0 (initResult domain)
    ctx.initCache []

/-- The structured `error` dict built after the retry loop. -/
structure ErrorInfo where
  type : String
  message : String
  attempts : Nat
  last_nameserver : Option String
deriving DecidableEq, Repr

/-- The `metrics` dict fields the claims observe (`duration_ms` is wall-clock
and `query_count` is the constant `None`; neither is modelled). -/
structure Metrics where
  retries : Nat
  resolved_by_nameserver : Option String
deriving DecidableEq, Repr

/-- One element of the returned list: the per-domain result dict. -/
structure DomainResult where
  domain : String
  resolvable : Bool
  ip_addresses : List String
  name_servers : List String
  dnssec : String
  error : Option ErrorInfo
  metrics : Metrics
deriving DecidableEq, Repr

/-- `resolver.nameservers[0] if ... else None`.  When no explicit (truthy)
nameserver list was configured the Python resolver reports the system default
nameserver, which is outside the model; every claim that reads this field
supplies an explicit list. -/
def resolvedByNameserver (cfg : Config) : Option String :=
  match cfg.nameservers with
  | some (n :: _) => some n
  | _ => none

/-- Embedding of `_resolve_one`: run the retry loop, then assemble metrics and
the structured error.  When `last_error` is set, `error` is populated from the
exception and `result["resolvable"]` is overwritten with
`bool(result["ip_addresses"])`. -/
def resolve_one (cfg : Config) (ctx : WorkerCtx) (domain : String) : DomainResult :=
  let out := runRetryLoop cfg ctx domain
  let ns0 := resolvedByNameserver cfg
  let metrics : Metrics := ⟨out.attempts - 1, ns0⟩
  match out.lastError with
  | none =>
    { domain := domain
      resolvable := out.res.resolvable
      ip_addresses := out.res.ip_addresses
      name_servers := out.res.name_servers
      dnssec := out.res.dnssec
      error := none
      metrics := metrics }
  | some e =>
    { domain := domain
      resolvable := !out.res.ip_addresses.isEmpty
      ip_addresses := out.res.ip_addresses
      name_servers := out.res.name_servers
      dnssec := out.res.dnssec
      error := some ⟨errType e, errMessage e, out.attempts, ns0⟩
      metrics := metrics }

/-- Spawn one worker per domain in input order (`tasks = [asyncio.create_task
(_resolve_one(d)) for d in domains]`); `ctxs i` is the nondeterministic input
consumed by the worker of the `i`-th domain. -/
def resolveBatchGo (cfg : Config) (ctxs : Nat → WorkerCtx) :
    Nat → List String → List DomainResult
  | _, [] => []
  | i, d :: ds => resolve_one cfg (ctxs i) d :: resolveBatchGo cfg ctxs (i + 1) ds

/-- Embedding of `resolve_domains_async`: `asyncio.gather` returns the
results positionally, in the order the tasks were created — i.e. input order,
independent of completion order. -/
def resolve_domains_async (cfg : Config) (ctxs : Nat → WorkerCtx)
    (domains : List String) : List DomainResult :=
  resolveBatchGo cfg ctxs 0 domains

/-- State of the batch's concurrency gate: `counter` is the value of
`asyncio.Semaphore(concurrency)`, `inside` the number of workers currently
between acquiring and releasing the semaphore (the `async with sem:` block
around `_do_work`, i.e. actively issuing queries), `waiting` the workers that
have not yet been admitted. -/
structure SemState where
  counter : Nat
  inside : Nat
  waiting : Nat
deriving DecidableEq, Repr

/-- Initial gate state for a batch of `m` domains under `concurrency = n`. -/
def semInit (n m : Nat) : SemState := ⟨n, 0, m⟩

/-- Scheduler steps of the semaphore discipline: a waiting worker may enter
the gated section only when the semaphore counter is positive (acquire
decrements it); a worker inside may leave (release increments it).  This is
the cooperative-scheduling semantics of `async with sem:` in `_resolve_one`. -/
inductive SemStep : SemState → SemState → Prop
  | acquire (c i w : Nat) : SemStep ⟨c + 1, i, w + 1⟩ ⟨c, i + 1, w⟩
  | release (c i w : Nat) : SemStep ⟨c, i + 1, w⟩ ⟨c + 1, i, w⟩

/-- The gate states reachable during a batch of `m` domains with
`concurrency = n`. -/
def SemReach (n m : Nat) (s : SemState) : Prop :=
  Relation.ReflTransGen SemStep (semInit n m) s

/-- The backoff sleeps performed for `count` consecutive failed transient
attempts starting at attempt index `first`. -/
def expectedSleeps (rands : Nat → ℚ) : Nat → Nat → List ℚ
  | _, 0 => []
  | first, count + 1 => sleepFor (rands first) first :: expectedSleeps rands (first + 1) count

/-- A probe query outcome that the `except dns.resolver.NoAnswer` handlers do
not absorb: any raised exception other than `NoAnswer`. -/
def unexpectedErr : Outcome → Bool
  | .err .NoAnswer => false
  | .err _ => true
  | .ok _ _ => false

/-- A probe query that produced a present non-empty answer
(`bool(answers)` is true). -/
def presentNonEmpty : Outcome → Bool
  | .ok records _ => !records.isEmpty
  | .err _ => false

/-- A probe query whose answer is confirmed absent: `NoAnswer`, or an answer
object with no records. -/
def confirmedAbsent : Outcome → Bool
  | .err .NoAnswer => true
  | .ok records _ => records.isEmpty
  | .err _ => false

/-- Oracle for the concrete bug reproductions: an A record exists, every
other query answers `NoAnswer` except NS, exactly the scenario of the
repository test `test_a_only_no_aaaa_is_resolvable`. -/
def envAOnly : Env := fun _n t =>
  match t with
  | .A => .ok ["192.0.2.1"] (some 60)
  | .AAAA => .err .NoAnswer
  | .CNAME => .err .NoAnswer
  | .NS => .ok ["ns.ipv4only.example."] (some 60)
  | .RRSIG => .err .NoAnswer
  | .DNSKEY => .err .NoAnswer

/-- Configuration with `retries = 2` and no per-domain timeout. -/
def cfgAOnly : Config := ⟨false, 2, 60, none, 50⟩

/-- Worker inputs for the bug reproductions: no attempt exceeds the
per-domain timeout, and the shared cache is empty. -/
def ctxAOnly : WorkerCtx := ⟨fun _ => envAOnly, fun _ => false, fun _ => 0, 0, emptyCache⟩

/-- Configuration with a per-domain timeout configured and `retries = 2`. -/
def cfgPdt : Config := ⟨true, 2, 60, none, 50⟩

/-- Worker inputs in which every attempt exceeds the per-domain timeout. -/
def ctxPdt : WorkerCtx := ⟨fun _ => envAOnly, fun _ => true, fun _ => 0, 0, emptyCache⟩

section CacheLemmas

/-- Inserting under a key makes that key map to the inserted entry. -/
theorem cacheFind_insert (l : List (CacheKey × CacheEntry)) (k : CacheKey) (v : CacheEntry) :
    cacheFind (cacheInsert l k v) k = some v := by
  induction l with
  | nil => simp [cacheInsert, cacheFind]
  | cons e rest ih =>
    obtain ⟨k', w⟩ := e
    by_cases h : k' = k <;> simp [cacheInsert, cacheFind, h, ih]

/-- Erasing a key removes it from the association list. -/
theorem cacheFind_erase (l : List (CacheKey × CacheEntry)) (k : CacheKey) :
    cacheFind (cacheErase l k) k = none := by
  induction l with
  | nil => rfl
  | cons e rest ih =>
    obtain ⟨k', w⟩ := e
    by_cases h : k' = k <;> simp [cacheErase, cacheFind, h] at ih ⊢ <;> simp [ih]

end CacheLemmas

/-- C6: after `set(name, type, value, ttl)` the computed absolute expiry is
`now + ttl` (with the module default when `ttl is None`); a `get` at or before
that expiry returns the stored value — and a cache-first lookup such as the
address phase then answers from the cache without consulting the upstream
oracle — while a `get` after the expiry returns `None` and evicts the entry. -/
theorem cache_roundtrip_expiry (c : SimpleTTLCache) (now : Nat) (name : String)
    (rtype : RType) (v : List String) (ttl t₁ t₂ : Nat)
    (h₁ : t₁ ≤ now + ttl) (h₂ : now + ttl < t₂) :
    ((c.set now name rtype v (some ttl)).get t₁ name rtype).1 = some v ∧
    ((c.set now name rtype v (some ttl)).get t₂ name rtype).1 = none ∧
    cacheFind ((c.set now name rtype v (some ttl)).get t₂ name rtype).2.data (name, rtype) = none ∧
    (∀ (env : Env) (ttlD : Nat),
      (addrLookup env ttlD t₁ name rtype (c.set now name rtype v (some ttl))).1 = .ok v) ∧
    c.set now name rtype v none = c.set now name rtype v (some DEFAULT_CACHE_TTL) := by
  have hfind : cacheFind (c.set now name rtype v (some ttl)).data (name, rtype) =
      some (now + ttl, v) := by
    simp [SimpleTTLCache.set, cacheFind_insert]
  have hget₁ : (c.set now name rtype v (some ttl)).get t₁ name rtype =
      (some v, c.set now name rtype v (some ttl)) := by
    simp [SimpleTTLCache.get, hfind, Nat.not_lt.mpr h₁]
  have hget₂ : (c.set now name rtype v (some ttl)).get t₂ name rtype =
      (none, ⟨cacheErase (c.set now name rtype v (some ttl)).data (name, rtype)⟩) := by
    simp [SimpleTTLCache.get, hfind, h₂]
  refine ⟨by rw [hget₁], by rw [hget₂], ?_, ?_, rfl⟩
  · rw [hget₂]
    exact cacheFind_erase _ _
  · intro env ttlD
    simp [addrLookup, hget₁]

/-- Witness for `cache_roundtrip_expiry` at a concrete round-trip. -/
theorem cache_roundtrip_expiry_witness :
    ((emptyCache.set 0 "a" .A ["1.1.1.1"] (some 5)).get 5 "a" .A).1 = some ["1.1.1.1"] ∧
    ((emptyCache.set 0 "a" .A ["1.1.1.1"] (some 5)).get 6 "a" .A).1 = none := by
  have h := cache_roundtrip_expiry emptyCache 0 "a" .A ["1.1.1.1"] 5 5 6
    (by decide) (by decide)
  exact ⟨h.1, h.2.1⟩

section BatchLemmas

/-- The assembled result always carries the worker's input domain. -/
theorem resolve_one_domain (cfg : Config) (ctx : WorkerCtx) (d : String) :
    (resolve_one cfg ctx d).domain = d := by
  simp only [resolve_one]
  rcases (runRetryLoop cfg ctx d).lastError with _ | e <;> rfl

/-- Mapping the batch back to its domain fields recovers the input list. -/
theorem resolveBatchGo_map_domain (cfg : Config) (ctxs : Nat → WorkerCtx) :
    ∀ (ds : List String) (i : Nat),
      (resolveBatchGo cfg ctxs i ds).map DomainResult.domain = ds := by
  intro ds
  induction ds with
  | nil => intro i; rfl
  | cons d rest ih =>
    intro i
    simp [resolveBatchGo, resolve_one_domain, ih (i + 1)]

end BatchLemmas

/-- C7: the batch operation returns exactly one `DomainResult` per input
domain, positionally: mapping each result to its `domain` field gives back the
input list itself, for every configuration and every worker schedule (the
`asyncio.gather` over tasks created in input order is order-preserving by
construction, independent of completion order). -/
theorem batch_preserves_input_order (cfg : Config) (ctxs : Nat → WorkerCtx)
    (domains : List String) :
    (resolve_domains_async cfg ctxs domains).length = domains.length ∧
    (resolve_domains_async cfg ctxs domains).map DomainResult.domain = domains := by
  have hmap : (resolve_domains_async cfg ctxs domains).map DomainResult.domain = domains :=
    resolveBatchGo_map_domain cfg ctxs domains 0
  refine ⟨?_, hmap⟩
  calc (resolve_domains_async cfg ctxs domains).length
      = ((resolve_domains_async cfg ctxs domains).map DomainResult.domain).length := by
        rw [List.length_map]
    _ = domains.length := by rw [hmap]

/-- C10: the batch operation applied to the empty domain list returns the
empty list; the embedding is a total function, mirroring that no input
validation rejects (or raises on) an empty batch. -/
theorem empty_batch_returns_empty (cfg : Config) (ctxs : Nat → WorkerCtx) :
    resolve_domains_async cfg ctxs [] = [] := rfl

/-- Along any schedule of the concurrency gate, the semaphore counter and the
number of workers inside the gated section sum to the configured capacity. -/
theorem semReach_counter_add (n m : Nat) :
    ∀ s, SemReach n m s → s.counter + s.inside = n := by
  intro s h
  induction h with
  | refl => rfl
  | tail _ step ih =>
    cases step with
    | acquire c i w => simp at ih ⊢; omega
    | release c i w => simp at ih ⊢; omega

/-- C9: with `concurrency = N` configured, every state the semaphore-gated
batch can reach has at most `N` workers concurrently inside the gated section
(the `async with sem:` block in which a worker issues its DNS queries); a
worker can enter only when the counter is positive, so workers beyond the cap
remain waiting. -/
theorem semaphore_concurrency_bound (cfg : Config) (m : Nat) (s : SemState)
    (h : SemReach cfg.concurrency m s) : s.inside ≤ cfg.concurrency := by
  have := semReach_counter_add cfg.concurrency m s h
  omega

/-- Witness for `semaphore_concurrency_bound`: with `concurrency = 2` and a
batch of 4 domains, the state after one admission satisfies the bound. -/
theorem semaphore_concurrency_bound_witness :
    (⟨1, 1, 3⟩ : SemState).inside ≤ (⟨false, 2, 60, none, 2⟩ : Config).concurrency := by
  refine semaphore_concurrency_bound ⟨false, 2, 60, none, 2⟩ 4 ⟨1, 1, 3⟩ ?_
  exact Relation.ReflTransGen.single (SemStep.acquire 1 0 3)

/-- C1 fails on the code: with an A record present and `NoAnswer` on AAAA
(and every other phase fine), line 175's `raise exc` re-raises the captured
`NoAnswer`, the attempt aborts before `result["ip_addresses"]` is assigned,
and `NoAnswer` is non-transient — so the final result has `resolvable =
false`, an error of type `NoAnswer` after exactly 1 attempt, and no
addresses, contradicting the claim (and the repository's own tests). -/
theorem noanswer_aaaa_fatal_bug :
    (resolve_one cfgAOnly ctxAOnly "ipv4only.example").resolvable = false ∧
    (resolve_one cfgAOnly ctxAOnly "ipv4only.example").ip_addresses = [] ∧
    (resolve_one cfgAOnly ctxAOnly "ipv4only.example").error =
      some ⟨"NoAnswer", errMessage .NoAnswer, 1, none⟩ := by decide

/-- C2 fails on the code: the `asyncio.TimeoutError` raised by
`asyncio.wait_for` is not a dnspython exception, so `_is_transient_error`
classifies it non-transient and the retry loop stops after exactly 1 attempt
with no backoff sleep, even with `retries = 2` and every attempt timing out;
the final error has type `TimeoutError` and `attempts = 1`. -/
theorem per_domain_timeout_not_retried_bug :
    is_transient_error .AsyncioTimeout = false ∧
    (runRetryLoop cfgPdt ctxPdt "example.com").attempts = 1 ∧
    (runRetryLoop cfgPdt ctxPdt "example.com").sleeps = [] ∧
    (resolve_one cfgPdt ctxPdt "example.com").error =
      some ⟨"TimeoutError", "", 1, none⟩ ∧
    (resolve_one cfgPdt ctxPdt "example.com").metrics.retries = 0 := by decide

section AttemptLemmas

/-- With an empty cache and `NoAnswer` on the CNAME query, the chase stops at
once with the original name. -/
theorem cnameChase_noAnswer (env : Env) (ttlDefault now fuel : Nat) (name : String)
    (h : env name .CNAME = .err .NoAnswer) :
    cnameChase env ttlDefault now (fuel + 1) name emptyCache = (.ok name, emptyCache) := by
  simp [cnameChase, SimpleTTLCache.get, cacheFind, emptyCache, h]

/-- With an empty cache, no CNAME, and the A query raising `e`, one attempt of
`_do_work` fails with `e` without mutating the result dict or the cache. -/
theorem do_work_addr_error (env : Env) (ttlDefault now : Nat) (domain : String)
    (res : ResultState) (e : DnsErr)
    (hC : env domain .CNAME = .err .NoAnswer)
    (hA : env domain .A = .err e) :
    do_work env ttlDefault now domain res emptyCache = (res, emptyCache, some e) := by
  have h8 : MAX_CNAME_DEPTH = 7 + 1 := rfl
  unfold do_work
  rw [h8, cnameChase_noAnswer env ttlDefault now 7 domain hC]
  simp [addrLookup, SimpleTTLCache.get, cacheFind, emptyCache, hA]

/-- With an empty cache and the CNAME answer targeting the queried name
itself, the chase raises the loop error at its very first step — for every
positive depth budget, not merely for the configured `MAX_CNAME_DEPTH`. -/
theorem cnameChase_self_loop (env : Env) (ttlDefault now fuel : Nat) (name : String)
    (rttl : Option Nat) (hname : name ≠ "") (h : env name .CNAME = .ok [name] rttl) :
    cnameChase env ttlDefault now (fuel + 1) name emptyCache =
      (.error (.RuntimeErr "CNAME loop detected"),
       emptyCache.set now name .CNAME [name] (some (rttl.getD ttlDefault))) := by
  simp [cnameChase, SimpleTTLCache.get, cacheFind, emptyCache, h, hname]

/-- A self-targeting CNAME makes one attempt of `_do_work` fail with the
`RuntimeError("CNAME loop detected")` exception. -/
theorem do_work_cname_loop (env : Env) (ttlDefault now : Nat) (domain : String)
    (res : ResultState) (rttl : Option Nat)
    (hdom : domain ≠ "")
    (hC : env domain .CNAME = .ok [domain] rttl) :
    do_work env ttlDefault now domain res emptyCache =
      (res, emptyCache.set now domain .CNAME [domain] (some (rttl.getD ttlDefault)),
       some (.RuntimeErr "CNAME loop detected")) := by
  have h8 : MAX_CNAME_DEPTH = 7 + 1 := rfl
  unfold do_work
  rw [h8, cnameChase_self_loop env ttlDefault now 7 domain rttl hdom hC]

/-- When every attempt of `_do_work` fails with the same transient error and
leaves the cache empty, the retry loop runs its full budget: entered with
`fuel` iterations left at attempt index `attempt`, it performs all of them,
sleeping the exponential backoff after each non-final failure. -/
theorem retryGo_all_fail_transient (envs : Nat → Env) (timesOut : Nat → Bool)
    (rands : Nat → ℚ) (retries ttlDefault now : Nat) (domain : String) (e : DnsErr)
    (he : is_transient_error e = true)
    (hwork : ∀ a res, do_work (envs a) ttlDefault now domain res emptyCache =
      (res, emptyCache, some e)) :
    ∀ fuel attempt res sleeps, attempt + fuel = retries + 1 → 1 ≤ fuel →
      retryGo envs timesOut false rands retries ttlDefault now domain fuel attempt
          res emptyCache sleeps =
        ⟨res, emptyCache, retries + 1, some e,
         sleeps ++ expectedSleeps rands attempt (fuel - 1)⟩ := by
  intro fuel
  induction fuel with
  | zero =>
    intro attempt res sleeps _ h2
    exact absurd h2 (by omega)
  | succ f ih =>
    intro attempt res sleeps h1 _
    simp only [retryGo, Bool.false_and, if_neg, Bool.false_eq_true, not_false_iff,
      ite_false, hwork attempt res]
    cases f with
    | zero =>
      have har : attempt = retries := by omega
      subst har
      simp [he, expectedSleeps]
    | succ k =>
      have hne : ¬(attempt = retries) := by omega
      rw [if_neg (by simp [he, hne])]
      rw [ih (attempt + 1) res (sleeps ++ [sleepFor (rands attempt) attempt])
        (by omega) (by omega)]
      simp [expectedSleeps, List.append_assoc]

/-- The backoff sleeps of `count` consecutive failed attempts, written as a
map over the attempt indices. -/
theorem expectedSleeps_eq (rands : Nat → ℚ) :
    ∀ count first, expectedSleeps rands first count =
      (List.range count).map (fun i => sleepFor (rands (first + i)) (first + i)) := by
  intro count
  induction count with
  | zero => intro first; rfl
  | succ k ih =>
    intro first
    rw [List.range_succ_eq_map, List.map_cons, List.map_map]
    have hfg : ((fun i => sleepFor (rands (first + i)) (first + i)) ∘ Nat.succ) =
        (fun i => sleepFor (rands (first + 1 + i)) (first + 1 + i)) := by
      funext i
      simp only [Function.comp_apply, Nat.succ_eq_add_one]
      rw [show first + (i + 1) = first + 1 + i by omega]
    rw [hfg, ← ih (first + 1)]
    simp [expectedSleeps]

/-- The jitter term `random.random() * backoff` lies in `[0, backoff)`. -/
theorem jitterBound (j : Nat) (r : ℚ) (h0 : 0 ≤ r) (h1 : r < 1) :
    0 ≤ r * backoffDelay j ∧ r * backoffDelay j < backoffDelay j := by
  have hb : 0 < backoffDelay j := by
    unfold backoffDelay
    positivity
  exact ⟨mul_nonneg h0 hb.le, (mul_lt_iff_lt_one_left hb).mpr h1⟩

end AttemptLemmas

/-- C3: when every attempt fails with the same transient error `e` (here: no
CNAME and the A query raising `e`, e.g. a per-query DNS timeout) under a
retry budget `retries = r`, exactly `r + 1` attempts are made; each non-final
failed attempt is followed by a sleep of `backoff + jitter` with `backoff =
0.1 × 2^attempt_index` and `jitter = rand × backoff` lying in `[0, backoff)`
whenever `rand ∈ [0, 1)`; and `metrics.retries = attempts − 1 = r`. -/
theorem transient_retry_exhaustion (cfg : Config) (ctx : WorkerCtx) (domain : String)
    (e : DnsErr)
    (hpdt : cfg.per_domain_timeout = false)
    (hcache : ctx.initCache = emptyCache)
    (he : is_transient_error e = true)
    (hC : ∀ a, ctx.env a domain .CNAME = .err .NoAnswer)
    (hA : ∀ a, ctx.env a domain .A = .err e) :
    (runRetryLoop cfg ctx domain).attempts = cfg.retries + 1 ∧
    (runRetryLoop cfg ctx domain).lastError = some e ∧
    (resolve_one cfg ctx domain).metrics.retries = cfg.retries ∧
    (resolve_one cfg ctx domain).error =
      some ⟨errType e, errMessage e, cfg.retries + 1, resolvedByNameserver cfg⟩ ∧
    (runRetryLoop cfg ctx domain).sleeps =
      (List.range cfg.retries).map (fun j => backoffDelay j + ctx.rands j * backoffDelay j) ∧
    (∀ (j : Nat) (r : ℚ), 0 ≤ r → r < 1 →
      0 ≤ r * backoffDelay j ∧ r * backoffDelay j < backoffDelay j) := by
  have hwork : ∀ a res, do_work (ctx.env a) cfg.cache_ttl_default ctx.now domain res emptyCache =
      (res, emptyCache, some e) :=
    fun a res => do_work_addr_error (ctx.env a) cfg.cache_ttl_default ctx.now domain res e
      (hC a) (hA a)
  have hloop : runRetryLoop cfg ctx domain =
      ⟨initResult domain, emptyCache, cfg.retries + 1, some e,
       [] ++ expectedSleeps ctx.rands 0 (cfg.retries + 1 - 1)⟩ := by
    unfold runRetryLoop
    rw [hpdt, hcache]
    exact retryGo_all_fail_transient ctx.env ctx.timesOut ctx.rands cfg.retries
      cfg.cache_ttl_default ctx.now domain e he hwork (cfg.retries + 1) 0
      (initResult domain) [] (by omega) (by omega)
  refine ⟨by rw [hloop], by rw [hloop], ?_, ?_, ?_, fun j r h0 h1 => jitterBound j r h0 h1⟩
  · simp [resolve_one, hloop]
  · simp [resolve_one, hloop, initResult]
  · rw [hloop]
    simp only [List.nil_append, Nat.add_sub_cancel]
    rw [expectedSleeps_eq ctx.rands cfg.retries 0]
    have hfg : (fun i => sleepFor (ctx.rands (0 + i)) (0 + i)) =
        (fun j => backoffDelay j + ctx.rands j * backoffDelay j) := by
      funext i
      simp [sleepFor]
    rw [hfg]

/-- Oracle for the retry-exhaustion witness: the A query times out on every
attempt (the scenario of the repository test `test_timeout_retries`). -/
def envTimeoutW : Env := fun _n t =>
  match t with
  | .A => .err .DnsTimeout
  | _ => .err .NoAnswer

/-- Configuration with `retries = 2` and an explicit nameserver. -/
def cfgTimeoutW : Config := ⟨false, 2, 60, some ["8.8.8.8"], 50⟩

/-- Worker inputs for the retry-exhaustion witness, with `random.random()`
drawing `1/2` every time. -/
def ctxTimeoutW : WorkerCtx :=
  ⟨fun _ => envTimeoutW, fun _ => false, fun _ => 1 / 2, 0, emptyCache⟩

/-- Witness for `transient_retry_exhaustion`: repeated A-query timeouts with
`retries = 2` make exactly 3 attempts, `metrics.retries = 2`, and a final
error of kind `Timeout`. -/
theorem transient_retry_exhaustion_witness :
    (runRetryLoop cfgTimeoutW ctxTimeoutW "slow.example").attempts = 3 ∧
    (resolve_one cfgTimeoutW ctxTimeoutW "slow.example").metrics.retries = 2 ∧
    (resolve_one cfgTimeoutW ctxTimeoutW "slow.example").error =
      some ⟨"Timeout", errMessage .DnsTimeout, 3, some "8.8.8.8"⟩ := by
  have h := transient_retry_exhaustion cfgTimeoutW ctxTimeoutW "slow.example" .DnsTimeout
    rfl rfl rfl (fun a => rfl) (fun a => rfl)
  exact ⟨h.1, h.2.2.1, h.2.2.2.1⟩

/-- C4: a non-transient NXDOMAIN failure aborts the retry loop after exactly
one attempt, whatever the configured retry budget; the structured error
carries the exception's type name, message, attempt count, and the last
nameserver; `resolvable` is false; and the batch returns the failure as data
(a populated `error` field in the returned list). -/
theorem nxdomain_terminal_single_attempt (cfg : Config) (ctx : WorkerCtx) (domain : String)
    (hpdt : cfg.per_domain_timeout = false)
    (hcache : ctx.initCache = emptyCache)
    (hC : ctx.env 0 domain .CNAME = .err .NoAnswer)
    (hA : ctx.env 0 domain .A = .err .NXDOMAIN) :
    (runRetryLoop cfg ctx domain).attempts = 1 ∧
    (resolve_one cfg ctx domain).resolvable = false ∧
    (resolve_one cfg ctx domain).error =
      some ⟨"NXDOMAIN", errMessage .NXDOMAIN, 1, resolvedByNameserver cfg⟩ ∧
    resolve_domains_async cfg (fun _ => ctx) [domain] = [resolve_one cfg ctx domain] := by
  have hwork := do_work_addr_error (ctx.env 0) cfg.cache_ttl_default ctx.now domain
    (initResult domain) .NXDOMAIN hC hA
  have hloop : runRetryLoop cfg ctx domain =
      ⟨initResult domain, emptyCache, 1, some .NXDOMAIN, []⟩ := by
    unfold runRetryLoop
    rw [hpdt, hcache]
    simp only [retryGo, Bool.false_and, Bool.false_eq_true, not_false_iff, ite_false, hwork]
    simp [is_transient_error]
  refine ⟨by rw [hloop], ?_, ?_, rfl⟩
  · simp [resolve_one, hloop, initResult]
  · simp [resolve_one, hloop, errType, errMessage]

/-- Oracle for the NXDOMAIN witness: the A query answers NXDOMAIN. -/
def envNxW : Env := fun _n t =>
  match t with
  | .A => .err .NXDOMAIN
  | _ => .err .NoAnswer

/-- Configuration with `retries = 2` and an explicit nameserver. -/
def cfgNxW : Config := ⟨false, 2, 60, some ["9.9.9.9"], 50⟩

/-- Worker inputs for the NXDOMAIN witness. -/
def ctxNxW : WorkerCtx := ⟨fun _ => envNxW, fun _ => false, fun _ => 0, 0, emptyCache⟩

/-- Witness for `nxdomain_terminal_single_attempt` at a concrete input. -/
theorem nxdomain_terminal_single_attempt_witness :
    (runRetryLoop cfgNxW ctxNxW "nope.invalid").attempts = 1 ∧
    (resolve_one cfgNxW ctxNxW "nope.invalid").error =
      some ⟨"NXDOMAIN", errMessage .NXDOMAIN, 1, some "9.9.9.9"⟩ := by
  have h := nxdomain_terminal_single_attempt cfgNxW ctxNxW "nope.invalid" rfl rfl rfl rfl
  exact ⟨h.1, h.2.2.1⟩

/-- C5: a CNAME answer targeting the queried name itself fails the attempt
immediately and terminally with `RuntimeError("CNAME loop detected")` —
exactly one attempt regardless of the retry budget, `resolvable = false`, the
error reflecting the loop condition — and the chase stops at its first step
for every positive depth budget (the same-name check, not the depth limit,
bounds it). -/
theorem cname_self_loop_terminal (cfg : Config) (ctx : WorkerCtx) (domain : String)
    (rttl : Option Nat)
    (hpdt : cfg.per_domain_timeout = false)
    (hcache : ctx.initCache = emptyCache)
    (hdom : domain ≠ "")
    (hC : ctx.env 0 domain .CNAME = .ok [domain] rttl) :
    (runRetryLoop cfg ctx domain).attempts = 1 ∧
    (resolve_one cfg ctx domain).resolvable = false ∧
    (resolve_one cfg ctx domain).error =
      some ⟨"RuntimeError", "CNAME loop detected", 1, resolvedByNameserver cfg⟩ ∧
    (∀ fuel, (cnameChase (ctx.env 0) cfg.cache_ttl_default ctx.now (fuel + 1) domain
      emptyCache).1 = .error (.RuntimeErr "CNAME loop detected")) := by
  have hwork := do_work_cname_loop (ctx.env 0) cfg.cache_ttl_default ctx.now domain
    (initResult domain) rttl hdom hC
  have hloop : runRetryLoop cfg ctx domain =
      ⟨initResult domain,
       emptyCache.set ctx.now domain .CNAME [domain] (some (rttl.getD cfg.cache_ttl_default)),
       1, some (.RuntimeErr "CNAME loop detected"), []⟩ := by
    unfold runRetryLoop
    rw [hpdt, hcache]
    simp only [retryGo, Bool.false_and, Bool.false_eq_true, not_false_iff, ite_false, hwork]
    simp [is_transient_error]
  refine ⟨by rw [hloop], ?_, ?_, ?_⟩
  · simp [resolve_one, hloop, initResult]
  · simp [resolve_one, hloop, errType, errMessage]
  · intro fuel
    rw [cnameChase_self_loop (ctx.env 0) cfg.cache_ttl_default ctx.now fuel domain rttl hdom hC]

/-- Oracle for the CNAME-loop witness: the CNAME of `loop.example` targets
`loop.example` itself (the scenario of the repository test `test_cname_loop`). -/
def envLoopW : Env := fun _n t =>
  match t with
  | .CNAME => .ok ["loop.example"] (some 60)
  | _ => .err .NoAnswer

/-- Worker inputs for the CNAME-loop witness. -/
def ctxLoopW : WorkerCtx := ⟨fun _ => envLoopW, fun _ => false, fun _ => 0, 0, emptyCache⟩

/-- Witness for `cname_self_loop_terminal` at a concrete input. -/
theorem cname_self_loop_terminal_witness :
    (runRetryLoop cfgAOnly ctxLoopW "loop.example").attempts = 1 ∧
    (resolve_one cfgAOnly ctxLoopW "loop.example").resolvable = false ∧
    (resolve_one cfgAOnly ctxLoopW "loop.example").error =
      some ⟨"RuntimeError", "CNAME loop detected", 1, none⟩ := by
  have h := cname_self_loop_terminal cfgAOnly ctxLoopW "loop.example" (some 60)
    rfl rfl (by decide) rfl
  exact ⟨h.1, h.2.1, h.2.2.1⟩

section ProbeLemmas

/-- The CNAME chase only issues CNAME queries, so it is unchanged when the
oracle is altered on RRSIG/DNSKEY queries only. -/
theorem cnameChase_probe_agnostic (env envB : Env) (ttlD now : Nat)
    (hagree : ∀ n t, t ≠ RType.RRSIG → t ≠ RType.DNSKEY → envB n t = env n t) :
    ∀ fuel name cache,
      cnameChase envB ttlD now fuel name cache = cnameChase env ttlD now fuel name cache := by
  intro fuel
  induction fuel with
  | zero => intro name cache; rfl
  | succ f ih =>
    intro name cache
    simp only [cnameChase]
    rw [hagree name .CNAME (by decide) (by decide)]
    rcases hget : cache.get now name .CNAME with ⟨val, cache1⟩
    rcases val with _ | v
    · rcases henv : env name .CNAME with ⟨records, rttl⟩ | e
      · rcases records with _ | ⟨t, rest⟩
        · rfl
        · by_cases ht : t = ""
          · simp [ht]
          · by_cases htn : t = name <;> simp [ht, htn, ih]
      · cases e <;> rfl
    · dsimp only
      split_ifs <;> first | rfl | exact ih _ _

/-- An address/NS-style lookup of a record type other than RRSIG/DNSKEY is
unchanged when the oracle is altered on RRSIG/DNSKEY queries only. -/
theorem addrLookup_probe_agnostic (env envB : Env) (ttlD now : Nat) (name : String)
    (rtype : RType) (cache : SimpleTTLCache)
    (h1 : rtype ≠ RType.RRSIG) (h2 : rtype ≠ RType.DNSKEY)
    (hagree : ∀ n t, t ≠ RType.RRSIG → t ≠ RType.DNSKEY → envB n t = env n t) :
    addrLookup envB ttlD now name rtype cache = addrLookup env ttlD now name rtype cache := by
  unfold addrLookup
  rw [hagree name rtype h1 h2]

/-- The NS lookup queries only NS, so it too is probe-agnostic. -/
theorem nsLookup_probe_agnostic (env envB : Env) (ttlD now : Nat) (domain : String)
    (cache : SimpleTTLCache)
    (hagree : ∀ n t, t ≠ RType.RRSIG → t ≠ RType.DNSKEY → envB n t = env n t) :
    nsLookup envB ttlD now domain cache = nsLookup env ttlD now domain cache := by
  unfold nsLookup
  rw [hagree domain .NS (by decide) (by decide)]

/-- The error component of one attempt of `_do_work` does not depend on the
outcomes of the RRSIG/DNSKEY probe queries: whatever the probe's queries
raise or return is swallowed inside phase 4 and never fails the attempt. -/
theorem do_work_error_probe_agnostic (env envB : Env) (ttlD now : Nat) (dom : String)
    (res : ResultState) (cache : SimpleTTLCache)
    (hagree : ∀ n t, t ≠ RType.RRSIG → t ≠ RType.DNSKEY → envB n t = env n t) :
    (do_work envB ttlD now dom res cache).2.2 = (do_work env ttlD now dom res cache).2.2 := by
  unfold do_work
  rw [cnameChase_probe_agnostic env envB ttlD now hagree MAX_CNAME_DEPTH dom cache]
  rcases cnameChase env ttlD now MAX_CNAME_DEPTH dom cache with ⟨en, cache1⟩
  rcases en with e | name
  · rfl
  · dsimp only
    rw [addrLookup_probe_agnostic env envB ttlD now name .A cache1
      (by decide) (by decide) hagree]
    rcases addrLookup env ttlD now name .A cache1 with ⟨ra, cache2⟩
    rcases ra with e | ipsA
    · rfl
    · dsimp only
      rw [addrLookup_probe_agnostic env envB ttlD now name .AAAA cache2
        (by decide) (by decide) hagree]
      rcases addrLookup env ttlD now name .AAAA cache2 with ⟨raa, cache3⟩
      rcases raa with e | ipsAAAA
      · rfl
      · dsimp only
        rw [nsLookup_probe_agnostic env envB ttlD now dom cache3 hagree]
        rcases nsLookup env ttlD now dom cache3 with ⟨rns, cache4⟩
        rcases rns with e | ns
        · cases e <;> rfl
        · rfl

end ProbeLemmas

/-- C8: classification of the DNSSEC presence probe (RRSIG queried for the
CNAME-chased name, DNSKEY for the original domain).  When neither query
raises an unexpected error, the status is `"signed-present"` iff at least one
of the two queries returned a non-empty result; if both are confirmed absent
the status is `"unsigned"`; if an unexpected error occurs anywhere in the
probe the status is `"unknown"` — and whatever the probe's two queries do is
swallowed: the error outcome of the whole attempt never depends on them. -/
theorem dnssec_probe_classification (env : Env) (name domain : String) :
    (unexpectedErr (env name .RRSIG) = false → unexpectedErr (env domain .DNSKEY) = false →
      (dnssecProbe env name domain = "signed-present" ↔
        (presentNonEmpty (env name .RRSIG) = true ∨
         presentNonEmpty (env domain .DNSKEY) = true))) ∧
    (confirmedAbsent (env name .RRSIG) = true → confirmedAbsent (env domain .DNSKEY) = true →
      dnssecProbe env name domain = "unsigned") ∧
    ((unexpectedErr (env name .RRSIG) = true ∨ unexpectedErr (env domain .DNSKEY) = true) →
      dnssecProbe env name domain = "unknown") ∧
    (∀ envB : Env, (∀ n t, t ≠ RType.RRSIG → t ≠ RType.DNSKEY → envB n t = env n t) →
      ∀ (ttlD now : Nat) (dom : String) (res : ResultState) (cache : SimpleTTLCache),
        (do_work envB ttlD now dom res cache).2.2 = (do_work env ttlD now dom res cache).2.2) := by
  refine ⟨?_, ?_, ?_, ?_⟩
  · intro hu1 hu2
    rcases h1 : env name .RRSIG with ⟨recs1, t1⟩ | e1
    · rcases h2 : env domain .DNSKEY with ⟨recs2, t2⟩ | e2
      · simp only [dnssecProbe, h1, h2, presentNonEmpty]
        cases hr1 : recs1.isEmpty <;> cases hr2 : recs2.isEmpty <;> simp [hr1, hr2]
      · rw [h2] at hu2
        cases e2 <;> simp [unexpectedErr] at hu2 <;>
          (simp only [dnssecProbe, h1, h2, presentNonEmpty]
           cases hr1 : recs1.isEmpty <;> simp [hr1])
    · rw [h1] at hu1
      cases e1 <;> simp [unexpectedErr] at hu1
      rcases h2 : env domain .DNSKEY with ⟨recs2, t2⟩ | e2
      · simp only [dnssecProbe, h1, h2, presentNonEmpty]
        cases hr2 : recs2.isEmpty <;> simp [hr2]
      · rw [h2] at hu2
        cases e2 <;> simp [unexpectedErr] at hu2 <;>
          simp [dnssecProbe, h1, h2, presentNonEmpty]
  · intro ha1 ha2
    rcases h1 : env name .RRSIG with ⟨recs1, t1⟩ | e1 <;> rw [h1] at ha1
    · rcases h2 : env domain .DNSKEY with ⟨recs2, t2⟩ | e2 <;> rw [h2] at ha2
      · simp [confirmedAbsent] at ha1 ha2
        simp [dnssecProbe, h1, h2, ha1, ha2]
      · cases e2 <;> simp [confirmedAbsent] at ha2
        simp [confirmedAbsent] at ha1
        simp [dnssecProbe, h1, h2, ha1]
    · cases e1 <;> simp [confirmedAbsent] at ha1
      rcases h2 : env domain .DNSKEY with ⟨recs2, t2⟩ | e2 <;> rw [h2] at ha2
      · simp [confirmedAbsent] at ha2
        simp [dnssecProbe, h1, h2, ha2]
      · cases e2 <;> simp [confirmedAbsent] at ha2
        simp [dnssecProbe, h1, h2]
  · intro hu
    rcases hu with hu | hu
    · rcases h1 : env name .RRSIG with ⟨recs1, t1⟩ | e1 <;> rw [h1] at hu
      · simp [unexpectedErr] at hu
      · cases e1 <;> simp [unexpectedErr] at hu <;> simp [dnssecProbe, h1]
    · rcases h2 : env domain .DNSKEY with ⟨recs2, t2⟩ | e2 <;> rw [h2] at hu
      · simp [unexpectedErr] at hu
      · rcases h1 : env name .RRSIG with ⟨recs1, t1⟩ | e1
        · cases e2 <;> simp [unexpectedErr] at hu <;> simp [dnssecProbe, h1, h2]
        · cases e1 <;> cases e2 <;> simp [unexpectedErr] at hu <;>
            simp [dnssecProbe, h1, h2]
  · intro envB hagree ttlD now dom res cache
    exact do_work_error_probe_agnostic env envB ttlD now dom res cache hagree

/-- Oracle for the probe witness: RRSIG present, DNSKEY absent (the scenario
of the repository test `test_resolve_rrsig_present`). -/
def envSigW : Env := fun _n t =>
  match t with
  | .RRSIG => .ok ["sigdata"] (some 60)
  | _ => .err .NoAnswer

/-- Witness for `dnssec_probe_classification` at a concrete probe outcome. -/
theorem dnssec_probe_classification_witness :
    dnssecProbe envSigW "signed.example" "signed.example" = "signed-present" ↔
      (presentNonEmpty (envSigW "signed.example" .RRSIG) = true ∨
       presentNonEmpty (envSigW "signed.example" .DNSKEY) = true) :=
  (dnssec_probe_classification envSigW "signed.example" "signed.example").1 rfl rfl

end DnsResolver
